import Mathlib

/-!
Verification development for the Climbiq hold-detection and route-grading
pipeline.  The definitions below are shallow embeddings of the Python
sources:

* `src/lambda-docker/contour/contour_lambda.py` — dual-space masking, band
  restriction, contour metadata and crop export;
* `src/lambda-docker/hold/grade_hold_lambda.py` — per-crop feature
  extraction, hold classification and hold grading;
* `src/lib/handlers/grade_route_lambda.py` — route assembly and scoring.

External OpenCV/NumPy library calls (color conversion, convex hull,
minimal-area rectangles, arc length) are modelled at their interfaces:
where a definition stands for such a call, its doc comment says so.
Machine floats are modelled by exact arithmetic (ℚ/ℝ).
-/

/-- Pixel-to-centimeter linear scale, `PIXEL_TO_CM = 50.0 / 272.0`, defined
identically in `grade_hold_lambda.py` line 8 and `grade_route_lambda.py`
line 11. -/
def PIXEL_TO_CM : ℚ := 50 / 272

/-- Expected hold-area range in cm², `EXPECTED_AREA_RANGE = (6.76, 169.0)`
(`grade_hold_lambda.py` line 9). -/
noncomputable def EXPECTED_AREA_RANGE : ℝ × ℝ := (676 / 100, 169)

/-- LAB distance tolerance, `LAB_TOLERANCE = 30` (`contour_lambda.py` line 9). -/
def LAB_TOLERANCE : ℕ := 30

/-- HSV per-channel tolerances, `HSV_TOLERANCE = (20, 60, 60)`
(`contour_lambda.py` line 10). -/
def HSV_TOLERANCE : ℤ × ℤ × ℤ := (20, 60, 60)

/-! ## Contour lambda: dual-space mask (contour_lambda.py lines 66-82) -/

/-- A pixel raster, indexed row/column, with a 3-component value per pixel.
Components are uint8 values in `[0, 255]`. -/
abbrev Raster : Type := ℕ → ℕ → ℕ × ℕ × ℕ

/-- Wrapping uint8 difference.  In `diff_lab = np.linalg.norm(lab_image -
lab_pixel, axis=2)` (line 67) both operands are uint8 arrays, so NumPy
subtracts modulo 256 before the norm promotes to float; for uint8 inputs
`a, b < 256` this is `(a - b) mod 256`. -/
def u8sub (a b : ℕ) : ℕ := (a + 256 - b) % 256

/-- LAB mask pixel test (lines 67-68): `diff_lab < LAB_TOLERANCE` where
`diff_lab` is the Euclidean norm of the (wrapping) componentwise
difference.  Since both sides are non-negative, `sqrt s < tol` is compared
as `s < tol²`; `labMaskPx_iff_norm` below proves this reading equal to the
square-root form. -/
def labMaskPx (labImg : Raster) (ref : ℕ × ℕ × ℕ) (tol : ℕ) (i j : ℕ) : Bool :=
  decide ((u8sub (labImg i j).1 ref.1) ^ 2 + (u8sub (labImg i j).2.1 ref.2.1) ^ 2 +
    (u8sub (labImg i j).2.2 ref.2.2) ^ 2 < tol ^ 2)

/-- HSV mask pixel test (lines 71-78).  The source first widens uint8 to
int (`astype(int)`), so differences here are over ℤ; hue distance is
circular over the OpenCV hue domain `[0, 180]`. -/
def hsvMaskPx (hsvImg : Raster) (ref : ℕ × ℕ × ℕ) (tolH tolS tolV : ℤ) (i j : ℕ) : Bool :=
  let hd : ℤ := |((hsvImg i j).1 : ℤ) - (ref.1 : ℤ)|
  let hd : ℤ := min hd (180 - hd)
  let ds : ℤ := |((hsvImg i j).2.1 : ℤ) - (ref.2.1 : ℤ)|
  let dv : ℤ := |((hsvImg i j).2.2 : ℤ) - (ref.2.2 : ℤ)|
  decide (hd < tolH) && decide (ds < tolS) && decide (dv < tolV)

/-- Column-band test from `apply_line_filter` (lines 29-34): `line_mask`
is 255 exactly on columns `[min(left, right), max(left, right))`. -/
def bandPx (left right j : ℕ) : Bool :=
  decide (min left right ≤ j) && decide (j < max left right)

/-- Combined candidate mask before morphological refinement (lines 81-82):
`mask = cv2.bitwise_and(mask_lab, mask_hsv)` followed by
`apply_line_filter`.  Both source masks take only the values 0 and 255, so
bitwise AND on them is Boolean conjunction, and multiplying by the band
mask zeroes the out-of-band columns. -/
def combinedMaskPx (labImg hsvImg : Raster) (labRef hsvRef : ℕ × ℕ × ℕ) (labTol : ℕ)
    (tolH tolS tolV : ℤ) (left right i j : ℕ) : Bool :=
  labMaskPx labImg labRef labTol i j && hsvMaskPx hsvImg hsvRef tolH tolS tolV i j &&
    bandPx left right j

/-! ## Contour lambda: crop export (contour_lambda.py lines 97-107) -/

/-- Cropped sub-image `crop_img = image[y_min:y_max, x_min:x_max]`
(line 105): NumPy slicing takes the raw pixels of the original image, so
pixel `(r, c)` of the crop is pixel `(y_min + r, x_min + c)` of the image
(valid for `r < y_max - y_min`, `c < x_max - x_min`).  No masking or
blackening of any pixel is applied before export. -/
def cropImage (image : Raster) (xMin yMin : ℕ) : Raster :=
  fun r c => image (yMin + r) (xMin + c)

/-- Cyclic shoelace sum of a polygon: `first` closes the ring. -/
def shoelaceAux (first : ℤ × ℤ) : List (ℤ × ℤ) → ℤ
  | p :: q :: rest => (p.1 * q.2 - q.1 * p.2) + shoelaceAux first (q :: rest)
  | [p] => p.1 * first.2 - first.1 * p.2
  | [] => 0

/-- Polygon area of a contour: `cv2.contourArea` computes half the
absolute value of the shoelace (Green's theorem) sum over the closed
point sequence. -/
def contourArea (pts : List (ℤ × ℤ)) : ℚ :=
  match pts with
  | [] => 0
  | p :: _ => |(shoelaceAux p pts : ℚ)| / 2

/-- Membership in the filled diamond contour `[(2,0), (4,2), (2,4), (0,2)]`
(taxicab ball of radius 2 around `(2,2)`): the rasterized contour region
used by the concrete C1 scenario. -/
def inDiamond (r c : ℕ) : Bool :=
  decide (((r : ℤ) - 2).natAbs + ((c : ℤ) - 2).natAbs ≤ 2)

/-- Concrete wall photograph for the C1 scenario: a red diamond-shaped
hold on a pure-white wall.  BGR component order, as in OpenCV. -/
def demoWallImage : Raster :=
  fun r c => if inDiamond r c then (0, 0, 200) else (255, 255, 255)

/-! ## Hold lambda: feature extraction (grade_hold_lambda.py lines 11-19, 64-77) -/

/-- Grayscale intensity of a BGR pixel: `cv2.cvtColor(img,
cv2.COLOR_BGR2GRAY)` uses `0.299 R + 0.587 G + 0.114 B` (rounding to uint8
omitted; it does not matter for the pixels considered here). -/
def bgr2gray (p : ℕ × ℕ × ℕ) : ℚ :=
  (299 / 1000) * (p.2.2 : ℚ) + (587 / 1000) * (p.2.1 : ℚ) + (114 / 1000) * (p.1 : ℚ)

/-- Binarization `cv2.threshold(gray, 1, 255, cv2.THRESH_BINARY)`
(grade_hold_lambda.py line 65): a pixel is foreground iff its gray
intensity exceeds 1. -/
def thresholdBinary1 (g : ℚ) : Bool := decide (1 < g)

/-- Pixel area converted to cm², `area_cm2 = pixel_area * (PIXEL_TO_CM**2)`
(grade_hold_lambda.py line 73). -/
noncomputable def hold_area_cm2 (pixelArea : ℝ) : ℝ :=
  pixelArea * ((PIXEL_TO_CM : ℝ)) ^ 2

/-- Embedding of `extract_hold_features` (grade_hold_lambda.py lines
11-19).  The OpenCV geometry calls are external: `perimeter` stands for
`cv2.arcLength(contour, True)` (polygon perimeter in pixels), `hullArea`
for `cv2.contourArea(cv2.convexHull(contour))` (convex-hull area in
pixel² units), and `w`, `h` for the side lengths of
`cv2.minAreaRect(contour)`.  `areaCm2` is the caller-supplied area in cm²
(line 73).  Returns `(circularity, convexity, aspect_ratio)`. -/
noncomputable def extract_hold_features (perimeter hullArea w h areaCm2 : ℝ) : ℝ × ℝ × ℝ :=
  let circularity := if 0 < perimeter then 4 * Real.pi * areaCm2 / perimeter ^ 2 else 0
  let convexity := if 0 < hullArea then areaCm2 / hullArea else 0
  let aspectR := if 0 < w ∧ 0 < h then max (w / h) (h / w) else 1
  (circularity, convexity, aspectR)

/-- Formalisation of the claim's reading of convexity (spec §4.5):
`convexity = area / convex-hull-area` with both quantities in the same
(centimeter-based) units, `0` if the hull area is `0`. -/
noncomputable def convexity_spec (areaCm2 hullAreaCm2 : ℝ) : ℝ :=
  if 0 < hullAreaCm2 then areaCm2 / hullAreaCm2 else 0

/-! ## Hold lambda: classification and grading (grade_hold_lambda.py lines 21-39) -/

/-- Embedding of `classify_hold` (lines 21-28): rule score starting at 0,
then `foothold` iff the score reaches 2. -/
noncomputable def classify_hold (area circ conv aspectR : ℝ) : String :=
  let score : ℤ :=
    (if 15 ≤ area then -1 else 2) + (if 1 / 2 < circ then 1 else 0) +
      (if conv < 7 / 10 then 1 else 0) +
      (if 7 / 10 ≤ aspectR ∧ aspectR ≤ 13 / 10 then 1 else 0)
  if 2 ≤ score then "foothold" else "handhold"

/-- Python's `round` on a finite value: round half to even, as an
integer.  Used to model `int(round(x))` (grade_hold_lambda.py line 39);
for the values reached there `round` is exact and `int` truncates an
already-integral float. -/
noncomputable def pyround (x : ℝ) : ℤ :=
  if x - ⌊x⌋ < 1 / 2 then ⌊x⌋
  else if 1 / 2 < x - ⌊x⌋ then ⌊x⌋ + 1
  else if Even ⌊x⌋ then ⌊x⌋ else ⌊x⌋ + 1

/-- Embedding of `compute_hold_grade` (lines 30-39). -/
noncomputable def compute_hold_grade (area circ conv aspectR : ℝ) (holdType : String) : ℤ :=
  let minA := EXPECTED_AREA_RANGE.1
  let maxA := EXPECTED_AREA_RANGE.2
  let areaScore := max 0 (min 6 ((maxA - area) / (maxA - minA) * 8))
  let circScore := (1 - circ) * 3
  let convScore := (1 - conv) * 3
  let arScore := |aspectR - 1| * 2
  let modifier : ℝ := if holdType = "foothold" then 3 / 2 else 6 / 5
  let total := (areaScore + circScore + convScore + arScore) * modifier
  pyround (max 1 (min 10 total))

/-! ## Hold lambda: metadata update (grade_hold_lambda.py lines 79-82) -/

/-- A Python dict as an insertion-ordered association list (dict keys are
unique; the operations below preserve that invariant). -/
abbrev Dict (V : Type) : Type := List (String × V)

/-- Dict key lookup: first (and, for a genuine dict, only) binding wins. -/
def dlookup {V : Type} (k : String) : Dict V → Option V
  | [] => none
  | (k', v) :: rest => if k' = k then some v else dlookup k rest

/-- Python dict item assignment `d[k] = v`: overwrites an existing binding
in place, otherwise appends the new binding at the end (dicts preserve
insertion order). -/
def dset {V : Type} (k : String) (v : V) : Dict V → Dict V
  | [] => [(k, v)]
  | (k', v') :: rest => if k' = k then (k, v) :: rest else (k', v') :: dset k v rest

/-- Per-hold metadata update of `lambda_handler` (grade_hold_lambda.py
lines 79-81): `entry = data.copy(); entry['hold_type'] = htype;
entry['hold_grade'] = grade`.  `vt` and `vg` are the computed
classification and grade values. -/
def updateEntry {V : Type} (data : Dict V) (vt vg : V) : Dict V :=
  dset "hold_grade" vg (dset "hold_type" vt data)

/-! ## Route lambda: data model (grade_route_lambda.py lines 62-97) -/

/-- JSON-ish values appearing in the route lambda's metadata entries. -/
inductive PyVal : Type
  | num (q : ℚ)
  | str (s : String)
  | point (x y : ℚ)
deriving DecidableEq

/-- Reads a value as a 2-D point (a two-element JSON array of numbers). -/
def asPoint : PyVal → Option (ℚ × ℚ)
  | .point x y => some (x, y)
  | _ => none

/-- Reads a value as a number. -/
def asNum : PyVal → Option ℚ
  | .num q => some q
  | _ => none

/-- Reads a value as a string. -/
def asStr : PyVal → Option String
  | .str s => some s
  | _ => none

/-- The reduced hold record built by the handler (lines 79-83):
`{'center': ..., 'grade': ..., 'type': ...}`, fields still raw values. -/
structure RawHold : Type where
  center : PyVal
  grade : PyVal
  type : PyVal
deriving DecidableEq

/-- Presence test of lines 78: `'hold_grade' in data and 'hold_type' in
data and 'center' in data`. -/
def hasRouteKeys (data : Dict PyVal) : Bool :=
  (dlookup "hold_grade" data).isSome && (dlookup "hold_type" data).isSome &&
    (dlookup "center" data).isSome

/-- Hold-list construction loop (grade_route_lambda.py lines 76-83): one
`RawHold` per metadata entry that has all three of `center`, `hold_type`
and `hold_grade`; every other entry is skipped. -/
def buildHolds : Dict (Dict PyVal) → List RawHold
  | [] => []
  | p :: rest =>
    match dlookup "hold_grade" p.2, dlookup "hold_type" p.2, dlookup "center" p.2 with
    | some g, some t, some c => ⟨c, g, t⟩ :: buildHolds rest
    | _, _, _ => buildHolds rest

/-- Projection of a metadata entry to a `RawHold`, used to state what
`buildHolds` keeps (defaults are never reached on entries passing
`hasRouteKeys`). -/
def mkRawHold (data : Dict PyVal) : RawHold :=
  ⟨(dlookup "center" data).getD (.num 0), (dlookup "hold_grade" data).getD (.num 0),
    (dlookup "hold_type" data).getD (.num 0)⟩

/-- A hold with well-typed fields, as consumed by sorting and scoring. -/
structure SHold : Type where
  center : ℚ × ℚ
  type : String
  grade : ℚ
deriving DecidableEq

/-- Checks and converts a `RawHold`'s fields to their expected types; a
field of the wrong shape surfaces as the handler's exception path. -/
def typedHold (h : RawHold) : Option SHold :=
  match asPoint h.center, asStr h.type, asNum h.grade with
  | some c, some t, some g => some ⟨c, t, g⟩
  | _, _, _ => none

/-! ## Route lambda: geometry (grade_route_lambda.py lines 35-43) -/

/-- Embedding of `calculate_distance` (lines 35-38): componentwise
difference scaled by `PIXEL_TO_CM`, then `np.hypot`. -/
noncomputable def calculate_distance (p1 p2 : ℚ × ℚ) : ℝ :=
  Real.sqrt ((((p2.1 - p1.1) * PIXEL_TO_CM : ℚ) : ℝ) ^ 2 +
    (((p2.2 - p1.2) * PIXEL_TO_CM : ℚ) : ℝ) ^ 2)

/-- Two-argument arctangent, modelling `np.arctan2(y, x)`: the angle of
the point `(x, y)` in `(-π, π]`, with the IEEE/NumPy convention
`atan2(0, 0) = 0`. -/
noncomputable def atan2 (y x : ℝ) : ℝ :=
  if 0 < x then Real.arctan (y / x)
  else if x < 0 ∧ 0 ≤ y then Real.arctan (y / x) + Real.pi
  else if x < 0 then Real.arctan (y / x) - Real.pi
  else if 0 < y then Real.pi / 2
  else if y < 0 then -(Real.pi / 2)
  else 0

/-- Embedding of `calculate_angle` (lines 41-43):
`abs(np.degrees(np.arctan2(dy, dx)))` on the raw pixel deltas. -/
noncomputable def calculate_angle (p1 p2 : ℚ × ℚ) : ℝ :=
  |atan2 (((p2.2 - p1.2 : ℚ) : ℝ)) (((p2.1 - p1.1 : ℚ) : ℝ)) * (180 / Real.pi)|

/-! ## Route lambda: movement scoring (grade_route_lambda.py lines 46-59) -/

/-- Reach tiers `MAX_STATIC_REACH = 90` (line 13). -/
noncomputable def MAX_STATIC_REACH : ℝ := 90

/-- Reach tiers `MAX_DYNAMIC_REACH = 105` (line 14). -/
noncomputable def MAX_DYNAMIC_REACH : ℝ := 105

/-- Embedding of `assess_move_difficulty` (lines 46-59).  The two
sequential `if` statements setting `mod` are mutually exclusive, so they
are rendered as one nested conditional. -/
noncomputable def assess_move_difficulty (dist ang : ℝ) (t1 t2 : String)
    (heightDiff : ℝ) (wallAngle : ℚ) : ℝ :=
  let ds : ℝ × ℝ :=
    if dist ≤ MAX_STATIC_REACH then ((dist / MAX_STATIC_REACH) * 20, 0)
    else if dist ≤ MAX_DYNAMIC_REACH then
      (20 + ((dist - MAX_STATIC_REACH) / (MAX_DYNAMIC_REACH - MAX_STATIC_REACH)) * 30, 5)
    else (50, 10)
  let aScore := (ang / 180) * 20
  let tmod : ℝ :=
    if t1 = t2 ∧ t2 = "handhold" then 3 / 2
    else if t1 = t2 ∧ t2 = "foothold" then 13 / 10
    else 1
  let hScore := (heightDiff / 200) * 20
  let wScore := ((wallAngle : ℝ) / 45) * 15
  (ds.1 + aScore) * tmod + hScore + wScore + ds.2

/-! ## Route lambda: ordering and scoring (grade_route_lambda.py lines 92-116) -/

/-- Squared centimeter distance between two centers.  `h['center'][1]` and
distance keys are compared only through their order, and
`calculate_distance` is the square root of this non-negative rational, so
sorting by `distSqCm` sorts exactly by `calculate_distance`
(`calculate_distance_le_iff` below). -/
def distSqCm (p1 p2 : ℚ × ℚ) : ℚ :=
  ((p2.1 - p1.1) * PIXEL_TO_CM) ^ 2 + ((p2.2 - p1.2) * PIXEL_TO_CM) ^ 2

/-- Sort `holds.sort(key=lambda h: h['center'][1])` (line 97): stable sort
by raw vertical pixel coordinate. -/
def sortByY (l : List SHold) : List SHold :=
  l.mergeSort (fun a b => decide (a.center.2 ≤ b.center.2))

/-- Sort `holds.sort(key=lambda h: calculate_distance(base, h['center']))`
(line 95): stable sort by planar distance from the start hold's center. -/
def sortByDist (base : ℚ × ℚ) (l : List SHold) : List SHold :=
  l.mergeSort (fun a b => decide (distSqCm base a.center ≤ distSqCm base b.center))

/-- Hold ordering step (lines 92-97): distance sort when the designated
start hold is a metadata key, else vertical sort.  Reading the start
entry's center (`metadata[start_hold]['center']`) can fail on malformed
data; that surfaces as the handler's exception path. -/
def sortRoute (metadata : Dict (Dict PyVal)) (startHold : Option String)
    (l : List SHold) : Option (List SHold) :=
  match startHold.bind (fun s => dlookup s metadata) with
  | some data => ((dlookup "center" data).bind asPoint).map (fun base => sortByDist base l)
  | none => some (sortByY l)

/-- Movement-relevant projection of a hold: the scoring loop (lines
105-110) reads only `center` and `type` of each hold. -/
def movementData (h : SHold) : (ℚ × ℚ) × String := (h.center, h.type)

/-- Average hold grade `sum(h['grade'] for h in holds) / len(holds)`
(line 100). -/
def avgGrade (l : List SHold) : ℚ := (l.map SHold.grade).sum / l.length

/-- Summed per-pair movement difficulty (loop of lines 105-110): for each
consecutive pair, distance and angle between the centers, the pair's hold
types, and the height of the second hold above the first hold of the whole
sorted sequence (`holds[0]`), clamped at 0 and scaled to centimeters. -/
noncomputable def movePairSum (firstY : ℚ) (wallAngle : ℚ) :
    List ((ℚ × ℚ) × String) → ℝ
  | m1 :: m2 :: rest =>
    assess_move_difficulty (calculate_distance m1.1 m2.1) (calculate_angle m1.1 m2.1)
      m1.2 m2.2 ((max 0 ((m2.1.2 - firstY) * PIXEL_TO_CM) : ℚ) : ℝ) wallAngle +
      movePairSum firstY wallAngle (m2 :: rest)
  | _ => 0

/-- Movement-difficulty component (lines 104-112): the per-pair sum,
averaged over the `len(holds) - 1` consecutive pairs and scaled by
`60/100`; `0` when fewer than two holds exist. -/
noncomputable def moveDiff (ms : List ((ℚ × ℚ) × String)) (wallAngle : ℚ) : ℝ :=
  match ms with
  | [] => 0
  | m0 :: rest =>
    if rest.length = 0 then 0
    else movePairSum m0.1.2 wallAngle (m0 :: rest) / ((m0 :: rest).length - 1 : ℕ) * (60 / 100)

/-- Route total (lines 99-115): hold-difficulty component `avg_hold *
(25/10)` plus the movement-difficulty component, over the sorted hold
list. -/
noncomputable def routeTotal (l : List SHold) (wallAngle : ℚ) : ℝ :=
  ((avgGrade l : ℚ) : ℝ) * (25 / 10) + moveDiff (l.map movementData) wallAngle

/-- Grade-bucket lookup `next((vg for lo, hi, vg in V_GRADE_MAPPING if lo
<= total < hi), 'V0')` over the table of lines 15-26; negative totals fall
through to the `'V0'` default. -/
noncomputable def vGrade (total : ℝ) : String :=
  if 0 ≤ total ∧ total < 10 then "V0"
  else if 10 ≤ total ∧ total < 16 then "V1"
  else if 16 ≤ total ∧ total < 22 then "V2"
  else if 22 ≤ total ∧ total < 28 then "V3"
  else if 28 ≤ total ∧ total < 34 then "V4"
  else if 34 ≤ total ∧ total < 40 then "V5"
  else if 40 ≤ total ∧ total < 50 then "V6"
  else if 50 ≤ total ∧ total < 60 then "V7"
  else if 60 ≤ total ∧ total < 75 then "V8"
  else if 75 ≤ total then "V9+"
  else "V0"

/-- Outcome of the route lambda.  `notApplicable` is the 200 response
`{'grade': 'N/A', 'message': 'No holds to grade.'}` of lines 85-90;
`graded` is the 200 response of lines 143-147 carrying `total_difficulty`
and the bucket label; `error` is the 500 response of lines 149-155. -/
inductive RouteResponse : Type
  | notApplicable
  | graded (total : ℝ) (grade : String)
  | error

/-- HTTP status code of each route-lambda outcome. -/
def statusCode : RouteResponse → ℕ
  | .error => 500
  | _ => 200

/-- Embedding of the route lambda's core (`lambda_handler`,
grade_route_lambda.py lines 76-116 and 143-147): build the hold list,
return the `N/A` sentinel when it is empty, otherwise sort and score.
Persistence side effects (S3, DynamoDB) are external sinks and carry no
information into the response body modelled here. -/
noncomputable def routeHandler (metadata : Dict (Dict PyVal)) (wallAngle : ℚ)
    (startHold : Option String) : RouteResponse :=
  let holds := buildHolds metadata
  if holds.isEmpty then .notApplicable
  else
    match holds.mapM typedHold with
    | none => .error
    | some ths =>
      match sortRoute metadata startHold ths with
      | none => .error
      | some sorted => .graded (routeTotal sorted wallAngle) (vGrade (routeTotal sorted wallAngle))

/-! ## Helper lemmas -/

theorem pyround_ge {x : ℝ} {n : ℤ} (h : (n : ℝ) ≤ x) : n ≤ pyround x := by
  have hf : n ≤ ⌊x⌋ := Int.le_floor.mpr h
  unfold pyround
  split_ifs <;> omega

theorem pyround_le {x : ℝ} {n : ℤ} (h : x ≤ (n : ℝ)) : pyround x ≤ n := by
  have hfl : (⌊x⌋ : ℝ) ≤ x := Int.floor_le x
  have hfn : ⌊x⌋ ≤ n := by
    have := Int.floor_le_floor h
    simpa using this
  unfold pyround
  split_ifs with h1 h2 h3
  · exact hfn
  · have hx : (⌊x⌋ : ℝ) + 1 / 2 < x := by linarith
    have hlt : (⌊x⌋ : ℝ) < (n : ℝ) := by linarith
    have : ⌊x⌋ < n := by exact_mod_cast hlt
    omega
  · exact hfn
  · have hx : (⌊x⌋ : ℝ) + 1 / 2 ≤ x := by push_neg at h1; linarith
    have hlt : (⌊x⌋ : ℝ) < (n : ℝ) := by linarith
    have : ⌊x⌋ < n := by exact_mod_cast hlt
    omega

theorem dlookup_append_of_none {V : Type} (k : String) (d1 d2 : Dict V)
    (h : dlookup k d1 = none) : dlookup k (d1 ++ d2) = dlookup k d2 := by
  induction d1 with
  | nil => rfl
  | cons p rest ih =>
    obtain ⟨k', v⟩ := p
    simp only [dlookup, List.cons_append] at h ⊢
    by_cases hk : k' = k
    · rw [if_pos hk] at h; exact absurd h (by simp)
    · rw [if_neg hk] at h ⊢; exact ih h

theorem dset_append_of_none {V : Type} (k : String) (v : V) (d : Dict V)
    (h : dlookup k d = none) : dset k v d = d ++ [(k, v)] := by
  induction d with
  | nil => rfl
  | cons p rest ih =>
    obtain ⟨k', v'⟩ := p
    simp only [dlookup] at h
    simp only [dset, List.cons_append]
    by_cases hk : k' = k
    · rw [if_pos hk] at h; exact absurd h (by simp)
    · rw [if_neg hk] at h ⊢
      rw [ih h]

/-! ## Claim theorems -/

/-- C4: the `HoldClassifier` computes a score starting at 0 with +2 if
`area_cm2 < 15` else −1, +1 if `circularity > 0.5`, +1 if
`convexity < 0.7`, and +1 if `0.7 ≤ aspect_ratio ≤ 1.3`, and classifies
the hold as foothold if and only if the total score is ≥ 2, else
handhold. -/
theorem c4_classify_hold_rule (area circ conv aspectR : ℝ) :
    classify_hold area circ conv aspectR =
      (if 2 ≤ (if area < 15 then (2 : ℤ) else -1) + (if 1 / 2 < circ then 1 else 0) +
          (if conv < 7 / 10 then 1 else 0) +
          (if 7 / 10 ≤ aspectR ∧ aspectR ≤ 13 / 10 then 1 else 0)
        then "foothold" else "handhold") ∧
    (classify_hold area circ conv aspectR = "foothold" ↔
      2 ≤ (if area < 15 then (2 : ℤ) else -1) + (if 1 / 2 < circ then 1 else 0) +
        (if conv < 7 / 10 then 1 else 0) +
        (if 7 / 10 ≤ aspectR ∧ aspectR ≤ 13 / 10 then 1 else 0)) := by
  have hflip : (if 15 ≤ area then (-1 : ℤ) else 2) = (if area < 15 then 2 else -1) := by
    rcases lt_or_le area 15 with h | h
    · rw [if_neg (not_le.mpr h), if_pos h]
    · rw [if_pos h, if_neg (not_lt.mpr h)]
  have hbody : classify_hold area circ conv aspectR =
      (if 2 ≤ (if area < 15 then (2 : ℤ) else -1) + (if 1 / 2 < circ then 1 else 0) +
          (if conv < 7 / 10 then 1 else 0) +
          (if 7 / 10 ≤ aspectR ∧ aspectR ≤ 13 / 10 then 1 else 0)
        then "foothold" else "handhold") := by
    unfold classify_hold
    rw [hflip]
  refine ⟨hbody, ?_⟩
  rw [hbody]
  by_cases h : 2 ≤ (if area < 15 then (2 : ℤ) else -1) + (if 1 / 2 < circ then 1 else 0) +
      (if conv < 7 / 10 then 1 else 0) +
      (if 7 / 10 ≤ aspectR ∧ aspectR ≤ 13 / 10 then 1 else 0)
  · rw [if_pos h]
    exact ⟨fun _ => h, fun _ => rfl⟩
  · rw [if_neg h]
    exact ⟨fun hs => absurd hs (by decide), fun hs => absurd hs h⟩

/-- C5: for any finite, non-negative feature inputs and either hold type,
the `HoldGrader` output equals `round(clamp(1, 10, total))` for the
specified weighted total and is always an integer in `[1, 10]`. -/
theorem c5_hold_grade_bounds (area circ conv aspectR : ℝ) (holdType : String)
    (ha : 0 ≤ area) (hc : 0 ≤ circ) (hv : 0 ≤ conv) (hr : 0 ≤ aspectR) :
    compute_hold_grade area circ conv aspectR holdType =
      pyround (max 1 (min 10
        ((max 0 (min 6 ((EXPECTED_AREA_RANGE.2 - area) /
            (EXPECTED_AREA_RANGE.2 - EXPECTED_AREA_RANGE.1) * 8)) +
          (1 - circ) * 3 + (1 - conv) * 3 + |aspectR - 1| * 2) *
          (if holdType = "foothold" then 3 / 2 else 6 / 5)))) ∧
    1 ≤ compute_hold_grade area circ conv aspectR holdType ∧
    compute_hold_grade area circ conv aspectR holdType ≤ 10 := by
  refine ⟨rfl, ?_, ?_⟩
  · apply pyround_ge
    have h1 : ((1 : ℤ) : ℝ) = 1 := by norm_num
    rw [h1]
    exact le_max_left _ _
  · apply pyround_le
    have h10 : ((10 : ℤ) : ℝ) = 10 := by norm_num
    rw [h10]
    exact max_le (by norm_num) (min_le_left _ _)

/-- Witness for C5 at a concrete input. -/
theorem c5_hold_grade_bounds_witness :
    (0 : ℝ) ≤ 20 ∧ (0 : ℝ) ≤ 1 / 2 ∧ (0 : ℝ) ≤ 9 / 10 ∧ (0 : ℝ) ≤ 1 ∧
    1 ≤ compute_hold_grade 20 (1 / 2) (9 / 10) 1 "handhold" ∧
    compute_hold_grade 20 (1 / 2) (9 / 10) 1 "handhold" ≤ 10 :=
  ⟨by norm_num, by norm_num, by norm_num, by norm_num,
    (c5_hold_grade_bounds 20 (1 / 2) (9 / 10) 1 "handhold" (by norm_num) (by norm_num)
      (by norm_num) (by norm_num)).2.1,
    (c5_hold_grade_bounds 20 (1 / 2) (9 / 10) 1 "handhold" (by norm_num) (by norm_num)
      (by norm_num) (by norm_num)).2.2⟩

/-- C9: for every hold the grading pass processes, the output metadata
entry keeps every key-value pair of the input entry unchanged and in
order, with exactly the two keys `hold_type` and `hold_grade` appended;
no other field is modified or removed. -/
theorem c9_update_entry_frame {V : Type} (data : Dict V) (vt vg : V)
    (h1 : dlookup "hold_type" data = none) (h2 : dlookup "hold_grade" data = none) :
    updateEntry data vt vg = data ++ [("hold_type", vt), ("hold_grade", vg)] := by
  have h3 : dlookup "hold_grade" (data ++ [("hold_type", vt)]) = none := by
    rw [dlookup_append_of_none _ _ _ h2]
    simp only [dlookup]
    rw [if_neg (by decide)]
  unfold updateEntry
  rw [dset_append_of_none _ _ _ h1, dset_append_of_none _ _ _ h3, List.append_assoc]
  rfl

/-- Witness for C9 at a concrete entry. -/
theorem c9_update_entry_frame_witness :
    dlookup "hold_type" [("center", "c0")] = none ∧
    dlookup "hold_grade" [("center", "c0")] = none ∧
    updateEntry [("center", "c0")] "handhold" "5" =
      [("center", "c0"), ("hold_type", "handhold"), ("hold_grade", "5")] :=
  ⟨by decide, by decide,
    c9_update_entry_frame [("center", "c0")] "handhold" "5" (by decide) (by decide)⟩

theorem buildHolds_eq_filter_map (metadata : Dict (Dict PyVal)) :
    buildHolds metadata =
      (metadata.filter (fun p => hasRouteKeys p.2)).map (fun p => mkRawHold p.2) := by
  induction metadata with
  | nil => rfl
  | cons p rest ih =>
    rcases hg : dlookup "hold_grade" p.2 with _ | g <;>
      rcases ht : dlookup "hold_type" p.2 with _ | t <;>
        rcases hc : dlookup "center" p.2 with _ | c <;>
          simp [buildHolds, hasRouteKeys, hg, ht, hc, mkRawHold, List.filter_cons, ih]

/-- C6: every pixel set in the combined mask (after the AND of the LAB and
HSV masks and the band restriction, before morphological refinement) is
also set in the LAB-only mask and in the HSV-only mask. -/
theorem c6_combined_mask_subset (labImg hsvImg : Raster) (labRef hsvRef : ℕ × ℕ × ℕ)
    (labTol : ℕ) (tolH tolS tolV : ℤ) (left right i j : ℕ)
    (h : combinedMaskPx labImg hsvImg labRef hsvRef labTol tolH tolS tolV left right i j =
      true) :
    labMaskPx labImg labRef labTol i j = true ∧
    hsvMaskPx hsvImg hsvRef tolH tolS tolV i j = true := by
  unfold combinedMaskPx at h
  simp only [Bool.and_eq_true] at h
  exact ⟨h.1.1, h.1.2⟩

/-- Witness for C6 on a concrete image, reference color and band. -/
theorem c6_combined_mask_subset_witness :
    combinedMaskPx (fun _ _ => (0, 0, 0)) (fun _ _ => (0, 0, 0)) (0, 0, 0) (0, 0, 0)
        LAB_TOLERANCE HSV_TOLERANCE.1 HSV_TOLERANCE.2.1 HSV_TOLERANCE.2.2 0 5 0 0 = true ∧
    labMaskPx (fun _ _ => (0, 0, 0)) (0, 0, 0) LAB_TOLERANCE 0 0 = true ∧
    hsvMaskPx (fun _ _ => (0, 0, 0)) (0, 0, 0) HSV_TOLERANCE.1 HSV_TOLERANCE.2.1
      HSV_TOLERANCE.2.2 0 0 = true := by
  have h : combinedMaskPx (fun _ _ => (0, 0, 0)) (fun _ _ => (0, 0, 0)) (0, 0, 0) (0, 0, 0)
      LAB_TOLERANCE HSV_TOLERANCE.1 HSV_TOLERANCE.2.1 HSV_TOLERANCE.2.2 0 5 0 0 = true := by
    decide
  exact ⟨h, (c6_combined_mask_subset _ _ _ _ _ _ _ _ _ _ _ _ h).1,
    (c6_combined_mask_subset _ _ _ _ _ _ _ _ _ _ _ _ h).2⟩

/-- C7: holding the movement inputs fixed (hold centers, hold types, their
sorted order, and the wall angle), the route total is monotonically
non-decreasing in the average hold grade. -/
theorem c7_route_total_monotone (l1 l2 : List SHold) (wallAngle : ℚ)
    (hmove : l1.map movementData = l2.map movementData)
    (havg : avgGrade l1 ≤ avgGrade l2) :
    routeTotal l1 wallAngle ≤ routeTotal l2 wallAngle := by
  unfold routeTotal
  rw [hmove]
  have hcast : ((avgGrade l1 : ℚ) : ℝ) ≤ ((avgGrade l2 : ℚ) : ℝ) := by exact_mod_cast havg
  have h2 : ((avgGrade l1 : ℚ) : ℝ) * (25 / 10) ≤ ((avgGrade l2 : ℚ) : ℝ) * (25 / 10) :=
    mul_le_mul_of_nonneg_right hcast (by norm_num)
  linarith

/-- Witness for C7 on two concrete one-hold grade assignments. -/
theorem c7_route_total_monotone_witness :
    ([⟨(0, 0), "handhold", 1⟩] : List SHold).map movementData =
      ([⟨(0, 0), "handhold", 2⟩] : List SHold).map movementData ∧
    avgGrade [⟨(0, 0), "handhold", 1⟩] ≤ avgGrade [⟨(0, 0), "handhold", 2⟩] ∧
    routeTotal [⟨(0, 0), "handhold", 1⟩] 20 ≤ routeTotal [⟨(0, 0), "handhold", 2⟩] 20 :=
  ⟨by decide, by norm_num [avgGrade],
    c7_route_total_monotone [⟨(0, 0), "handhold", 1⟩] [⟨(0, 0), "handhold", 2⟩] 20
      (by decide) (by norm_num [avgGrade])⟩

/-- C8: when the hold list is empty the route lambda returns the
`N/A` sentinel as a 200 response, a constructor distinct from the error
outcome; the error path is not taken. -/
theorem c8_empty_holds_sentinel (metadata : Dict (Dict PyVal)) (wallAngle : ℚ)
    (startHold : Option String) (h : buildHolds metadata = []) :
    routeHandler metadata wallAngle startHold = RouteResponse.notApplicable ∧
    statusCode (routeHandler metadata wallAngle startHold) = 200 ∧
    RouteResponse.notApplicable ≠ RouteResponse.error := by
  have h1 : routeHandler metadata wallAngle startHold = RouteResponse.notApplicable := by
    simp [routeHandler, h]
  exact ⟨h1, by rw [h1]; rfl, fun hcontra => RouteResponse.noConfusion hcontra⟩

/-- Witness for C8 on empty metadata. -/
theorem c8_empty_holds_sentinel_witness :
    buildHolds ([] : Dict (Dict PyVal)) = [] ∧
    routeHandler [] 20 none = RouteResponse.notApplicable :=
  ⟨rfl, (c8_empty_holds_sentinel [] 20 none rfl).1⟩

/-- C10: the route lambda consumes exactly the metadata entries carrying
all three of `center`, `hold_type` and `hold_grade` (in metadata order);
entries missing one of them are silently excluded, and when every entry
lacks one the result is the `N/A` sentinel rather than an error. -/
theorem c10_route_consumes_complete_entries (metadata : Dict (Dict PyVal)) (wallAngle : ℚ)
    (startHold : Option String) :
    buildHolds metadata =
      (metadata.filter (fun p => hasRouteKeys p.2)).map (fun p => mkRawHold p.2) ∧
    ((∀ p ∈ metadata, hasRouteKeys p.2 = false) →
      routeHandler metadata wallAngle startHold = RouteResponse.notApplicable) := by
  refine ⟨buildHolds_eq_filter_map metadata, fun hall => ?_⟩
  have hfil : metadata.filter (fun p => hasRouteKeys p.2) = [] := by
    rw [List.filter_eq_nil_iff]
    intro p hp
    simp [hall p hp]
  have hempty : buildHolds metadata = [] := by
    rw [buildHolds_eq_filter_map metadata, hfil]
    rfl
  simp [routeHandler, hempty]

/-- Witness for C10 on metadata whose single entry lacks the type and
grade fields. -/
theorem c10_route_consumes_complete_entries_witness :
    (∀ p ∈ ([("c0.jpg", [("center", PyVal.point 0 0)])] : Dict (Dict PyVal)),
      hasRouteKeys p.2 = false) ∧
    routeHandler [("c0.jpg", [("center", PyVal.point 0 0)])] 20 none =
      RouteResponse.notApplicable :=
  ⟨by decide,
    (c10_route_consumes_complete_entries [("c0.jpg", [("center", PyVal.point 0 0)])] 20
      none).2 (by decide)⟩

theorem labMaskPx_iff_norm (labImg : Raster) (ref : ℕ × ℕ × ℕ) (tol : ℕ) (i j : ℕ)
    (htol : 0 < tol) :
    labMaskPx labImg ref tol i j = true ↔
      Real.sqrt (((u8sub (labImg i j).1 ref.1 : ℕ) : ℝ) ^ 2 +
        ((u8sub (labImg i j).2.1 ref.2.1 : ℕ) : ℝ) ^ 2 +
        ((u8sub (labImg i j).2.2 ref.2.2 : ℕ) : ℝ) ^ 2) < (tol : ℝ) := by
  unfold labMaskPx
  rw [decide_eq_true_eq, Real.sqrt_lt' (by exact_mod_cast htol)]
  constructor <;> intro h <;> exact_mod_cast h

theorem calculate_distance_le_iff (base p q : ℚ × ℚ) :
    calculate_distance base p ≤ calculate_distance base q ↔
      distSqCm base p ≤ distSqCm base q := by
  unfold calculate_distance
  have hp : (((p.1 - base.1) * PIXEL_TO_CM : ℚ) : ℝ) ^ 2 +
      (((p.2 - base.2) * PIXEL_TO_CM : ℚ) : ℝ) ^ 2 = ((distSqCm base p : ℚ) : ℝ) := by
    unfold distSqCm
    push_cast
    ring
  have hq : (((q.1 - base.1) * PIXEL_TO_CM : ℚ) : ℝ) ^ 2 +
      (((q.2 - base.2) * PIXEL_TO_CM : ℚ) : ℝ) ^ 2 = ((distSqCm base q : ℚ) : ℝ) := by
    unfold distSqCm
    push_cast
    ring
  have hq0 : (0 : ℝ) ≤ ((distSqCm base q : ℚ) : ℝ) := by
    have h0 : (0 : ℚ) ≤ distSqCm base q := by unfold distSqCm; positivity
    exact_mod_cast h0
  rw [hp, hq, Real.sqrt_le_sqrt_iff hq0, Rat.cast_le]

theorem dist_vert : calculate_distance (0, 0) (0, 2448 / 5) = 90 := by
  unfold calculate_distance
  have h1 : (((0 : ℚ) - 0) * PIXEL_TO_CM : ℚ) = 0 := by norm_num
  have h2 : (((2448 / 5 : ℚ) - 0) * PIXEL_TO_CM : ℚ) = 90 := by norm_num [PIXEL_TO_CM]
  rw [show ((0 : ℚ), (2448 / 5 : ℚ)).1 - ((0 : ℚ), (0 : ℚ)).1 = (0 : ℚ) - 0 from rfl,
    show ((0 : ℚ), (2448 / 5 : ℚ)).2 - ((0 : ℚ), (0 : ℚ)).2 = (2448 / 5 : ℚ) - 0 from rfl]
  rw [h1, h2]
  norm_num
  rw [show (8100 : ℝ) = 90 ^ 2 by norm_num]
  exact Real.sqrt_sq (by norm_num)

theorem angle_vert : calculate_angle (0, 0) (0, 2448 / 5) = 90 := by
  unfold calculate_angle
  have hy : ((((0 : ℚ), (2448 / 5 : ℚ)).2 - ((0 : ℚ), (0 : ℚ)).2 : ℚ) : ℝ) = 2448 / 5 := by
    push_cast
    norm_num
  have hx : ((((0 : ℚ), (2448 / 5 : ℚ)).1 - ((0 : ℚ), (0 : ℚ)).1 : ℚ) : ℝ) = 0 := by
    push_cast
    norm_num
  rw [hy, hx]
  have hatan : atan2 (2448 / 5 : ℝ) 0 = Real.pi / 2 := by
    unfold atan2
    rw [if_neg (by norm_num), if_neg (by simp), if_neg (by norm_num),
      if_pos (by norm_num : (0 : ℝ) < 2448 / 5)]
  rw [hatan]
  have hval : Real.pi / 2 * (180 / Real.pi) = 90 := by
    field_simp
    ring
  rw [hval]
  exact abs_of_nonneg (by norm_num)

/-- C1 evaluation: the contour lambda's crop of the diamond hold's
axis-aligned bounding box (`x_min = y_min = 0`, `x_max = y_max = 4` from
the minimal-area-rectangle corners of the contour `[(2,0), (4,2), (2,4),
(0,2)]`) keeps the original white wall pixel at `(0, 0)`, a point outside
the contour region, instead of presenting it as pure black; the hold
lambda's binarization at intensity 1 then counts that background pixel as
foreground. -/
theorem c1_crop_keeps_background :
    cropImage demoWallImage 0 0 0 0 = (255, 255, 255) ∧
    inDiamond 0 0 = false ∧
    cropImage demoWallImage 0 0 0 0 ≠ ((0, 0, 0) : ℕ × ℕ × ℕ) ∧
    thresholdBinary1 (bgr2gray (cropImage demoWallImage 0 0 0 0)) = true := by
  have hpix : cropImage demoWallImage 0 0 0 0 = (255, 255, 255) := by rfl
  refine ⟨hpix, by rfl, ?_, ?_⟩
  · rw [hpix]
    simp
  · rw [hpix]
    simp only [thresholdBinary1, bgr2gray, decide_eq_true_eq]
    norm_num

/-- C2 evaluation: for the 10×10 axis-aligned square contour `[(0,0),
(10,0), (10,10), (0,10)]` (pixel area 100, perimeter 40 px, convex hull =
itself with area 100 px²), the hold lambda's convexity is `area_cm2 /
hull_area_px = (50/272)² = 625/18496`, not the dimensionless ratio 1 the
claim specifies, and its circularity differs from the claimed
`4π·area/perimeter²` with all quantities in the same units. -/
theorem c2_feature_units_bug :
    contourArea [(0, 0), (10, 0), (10, 10), (0, 10)] = 100 ∧
    (extract_hold_features 40 100 10 10 (hold_area_cm2 100)).2.1 = 625 / 18496 ∧
    convexity_spec (hold_area_cm2 100) (hold_area_cm2 100) = 1 ∧
    ((625 : ℝ) / 18496) ≠ 1 ∧
    (extract_hold_features 40 100 10 10 (hold_area_cm2 100)).1 ≠
      4 * Real.pi * 100 / 40 ^ 2 := by
  have hpos : (0 : ℝ) < hold_area_cm2 100 := by
    unfold hold_area_cm2 PIXEL_TO_CM
    positivity
  refine ⟨by norm_num [contourArea, shoelaceAux], ?_, ?_, by norm_num, ?_⟩
  · show (if (0 : ℝ) < 100 then hold_area_cm2 100 / 100 else 0) = 625 / 18496
    rw [if_pos (by norm_num : (0 : ℝ) < 100)]
    unfold hold_area_cm2 PIXEL_TO_CM
    push_cast
    norm_num
  · unfold convexity_spec
    rw [if_pos hpos]
    exact div_self (ne_of_gt hpos)
  · show (if (0 : ℝ) < 40 then 4 * Real.pi * hold_area_cm2 100 / 40 ^ 2 else 0) ≠
      4 * Real.pi * 100 / 40 ^ 2
    rw [if_pos (by norm_num : (0 : ℝ) < 40)]
    intro heq
    have h4pi : (4 : ℝ) * Real.pi ≠ 0 := by
      have := Real.pi_pos
      positivity
    field_simp at heq
    rw [hold_area_cm2, PIXEL_TO_CM] at heq
    push_cast at heq
    norm_num at heq

/-- C3 counterexample: in the two-handhold scenario with centers `(0, 0)`
and `(0, 2448/5)` (2448/5 px converts to exactly 90 cm), the angle score
`(ang / 180) * 20` of the code is 10 — the move is vertical, so
`calculate_angle` yields 90° — and not `20/180 × 20 ≈ 2.22` as the claim
states. -/
theorem c3_angle_score_cx :
    (calculate_angle (0, 0) (0, 2448 / 5) / 180) * 20 ≠ ((20 : ℝ) / 180) * 20 := by
  rw [angle_vert]
  norm_num

/-- C3 amended: for two handholds at `(0, 0)` and `(0, 2448/5)` (exactly
90 cm apart) with wall angle 20, the code's per-pair movement computation
yields `static_score = 20`, `dynamic_bonus = 0`, `angle_score = 90/180 ×
20 = 10` (the move is vertical), `type_modifier = 1.5`, and the per-pair
difficulty equals `(static_score + angle_score) × type_modifier +
height_score + wall_score + dynamic_bonus` with `height_score` and
`wall_score` per their formulas. -/
theorem c3_vertical_move_scenario :
    calculate_distance (0, 0) (0, 2448 / 5) = 90 ∧
    calculate_angle (0, 0) (0, 2448 / 5) = 90 ∧
    (max 0 ((2448 / 5 - 0) * PIXEL_TO_CM) : ℚ) = 90 ∧
    assess_move_difficulty (calculate_distance (0, 0) (0, 2448 / 5))
        (calculate_angle (0, 0) (0, 2448 / 5)) "handhold" "handhold" 90 20 =
      (20 + (90 / 180) * 20) * (3 / 2) + ((90 : ℝ) / 200) * 20 + ((20 : ℝ) / 45) * 15 + 0 := by
  refine ⟨dist_vert, angle_vert, by norm_num [PIXEL_TO_CM], ?_⟩
  rw [dist_vert, angle_vert]
  simp only [assess_move_difficulty, MAX_STATIC_REACH, MAX_DYNAMIC_REACH]
  push_cast
  norm_num
